import Mathlib

/-!
Verification of the PaymentApi repository (Express payment gateway demo:
transaction store, M-Pesa / Equity provider services, webhook processing and
dispatch). Each part of the development embeds one source unit:

* `sha256` / `hmacSha256` / `hexEncode` / `hexDecodeNode` — the Node `crypto`
  primitives used by `server/services/webhooks.ts` (`createHmac('sha256', secret)
  .update(data).digest('hex')`, `Buffer.from(s, 'hex')`, `crypto.timingSafeEqual`).
  Machine words are `Nat` reduced mod 2^32.
* `MemStorage` and its operations — the in-memory store (`server/storage.ts`).
* `mpesaHandleWebhook` / `equityHandleWebhook` / `processWebhook` — the
  provider callback normalisation and webhook processing services.
* the route handlers of `server/routes.ts` used by the claims.
* `deliverWebhook` / `scheduleRetry` — the dispatcher retry mechanism.
-/

/-! ## Bytes and hex encoding

Byte sequences are `List Nat` with entries below 256. `hexDigitChar` mirrors
Node's lowercase hex digest alphabet; `hexDecodeChars` mirrors
`Buffer.from(s, 'hex')`, which decodes pairwise and stops at the first
non-hex pair (an odd trailing character is dropped). -/

def hexDigitChar (n : Nat) : Char :=
  if n < 10 then Char.ofNat (48 + n) else Char.ofNat (87 + n)

def hexVal (c : Char) : Option Nat :=
  let n := c.toNat
  if 48 ≤ n ∧ n ≤ 57 then some (n - 48)
  else if 97 ≤ n ∧ n ≤ 102 then some (n - 87)
  else if 65 ≤ n ∧ n ≤ 70 then some (n - 55)
  else none

def hexEncodeBytes (bs : List Nat) : List Char :=
  bs.foldr (fun b acc => hexDigitChar (b / 16) :: hexDigitChar (b % 16) :: acc) []

def hexEncode (bs : List Nat) : String := String.mk (hexEncodeBytes bs)

def hexDecodeChars : List Char → List Nat
  | c1 :: c2 :: rest =>
    match hexVal c1, hexVal c2 with
    | some a, some b => (16 * a + b) :: hexDecodeChars rest
    | _, _ => []
  | _ => []

/-- `Buffer.from(s, 'hex')` on a Lean string. -/
def hexDecodeNode (s : String) : List Nat := hexDecodeChars s.data

/-! ## SHA-256 (FIPS 180-4) over byte lists, words as `Nat` mod 2^32 -/

def w32 (n : Nat) : Nat := n % 4294967296

def rotr32 (x n : Nat) : Nat := w32 ((x >>> n) ||| (x <<< (32 - n)))

def ch32 (x y z : Nat) : Nat := (x &&& y) ^^^ ((x ^^^ 4294967295) &&& z)

def maj32 (x y z : Nat) : Nat := (x &&& y) ^^^ (x &&& z) ^^^ (y &&& z)

def bsig0 (x : Nat) : Nat := rotr32 x 2 ^^^ rotr32 x 13 ^^^ rotr32 x 22

def bsig1 (x : Nat) : Nat := rotr32 x 6 ^^^ rotr32 x 11 ^^^ rotr32 x 25

def ssig0 (x : Nat) : Nat := rotr32 x 7 ^^^ rotr32 x 18 ^^^ (x >>> 3)

def ssig1 (x : Nat) : Nat := rotr32 x 17 ^^^ rotr32 x 19 ^^^ (x >>> 10)

def sha256K : List Nat :=
  [1116352408, 1899447441, 3049323471, 3921009573, 961987163,
   1508970993, 2453635748, 2870763221, 3624381080, 310598401,
   607225278, 1426881987, 1925078388, 2162078206, 2614888103,
   3248222580, 3835390401, 4022224774, 264347078, 604807628,
   770255983, 1249150122, 1555081692, 1996064986, 2554220882,
   2821834349, 2952996808, 3210313671, 3336571891, 3584528711,
   113926993, 338241895, 666307205, 773529912, 1294757372,
   1396182291, 1695183700, 1986661051, 2177026350, 2456956037,
   2730485921, 2820302411, 3259730800, 3345764771, 3516065817,
   3600352804, 4094571909, 275423344, 430227734, 506948616,
   659060556, 883997877, 958139571, 1322822218, 1537002063,
   1747873779, 1955562222, 2024104815, 2227730452, 2361852424,
   2428436474, 2756734187, 3204031479, 3329325298]

structure Hash8 where
  a : Nat
  b : Nat
  c : Nat
  d : Nat
  e : Nat
  f : Nat
  g : Nat
  h : Nat
deriving DecidableEq

def sha256H0 : Hash8 :=
  ⟨1779033703, 3144134277, 1013904242, 2773480762,
   1359893119, 2600822924, 528734635, 1541459225⟩

/-- Big-endian 8-byte encoding of the 64-bit message bit length. -/
def be64 (n : Nat) : List Nat :=
  [(n >>> 56) % 256, (n >>> 48) % 256, (n >>> 40) % 256, (n >>> 32) % 256,
   (n >>> 24) % 256, (n >>> 16) % 256, (n >>> 8) % 256, n % 256]

/-- SHA-256 padding: `0x80`, zeros to 56 mod 64, then the bit length. -/
def padMessage (msg : List Nat) : List Nat :=
  let zeros := (119 - msg.length % 64) % 64
  msg ++ 128 :: List.replicate zeros 0 ++ be64 (msg.length * 8)

/-- Split into 64-byte blocks. The fuel is the list length, an upper bound on
the number of blocks, making the recursion structural (and kernel-reducible). -/
def chunksGo (fuel : Nat) (l : List Nat) : List (List Nat) :=
  match fuel, l with
  | _, [] => []
  | 0, _ => []
  | fuel + 1, l => l.take 64 :: chunksGo fuel (l.drop 64)

def chunks64 (l : List Nat) : List (List Nat) := chunksGo l.length l

/-- The first 16 words of the message schedule, big-endian from a 64-byte block. -/
def initWords (block : List Nat) : List Nat :=
  (List.range 16).map fun i =>
    block.getD (4 * i) 0 * 16777216 + block.getD (4 * i + 1) 0 * 65536 +
    block.getD (4 * i + 2) 0 * 256 + block.getD (4 * i + 3) 0

/-- Extend the message schedule by `n` further words. -/
def extendW : List Nat → Nat → List Nat
  | ws, 0 => ws
  | ws, n + 1 =>
    let i := ws.length
    let nw := w32 (ssig1 (ws.getD (i - 2) 0) + ws.getD (i - 7) 0 +
      ssig0 (ws.getD (i - 15) 0) + ws.getD (i - 16) 0)
    extendW (ws ++ [nw]) n

def sha256Round (st : Hash8) (wk : Nat × Nat) : Hash8 :=
  let t1 := w32 (st.h + bsig1 st.e + ch32 st.e st.f st.g + wk.2 + wk.1)
  let t2 := w32 (bsig0 st.a + maj32 st.a st.b st.c)
  ⟨w32 (t1 + t2), st.a, st.b, st.c, w32 (st.d + t1), st.e, st.f, st.g⟩

def processBlock (H : Hash8) (block : List Nat) : Hash8 :=
  let ws := extendW (initWords block) 48
  let st := (ws.zip sha256K).foldl sha256Round H
  ⟨w32 (H.a + st.a), w32 (H.b + st.b), w32 (H.c + st.c), w32 (H.d + st.d),
   w32 (H.e + st.e), w32 (H.f + st.f), w32 (H.g + st.g), w32 (H.h + st.h)⟩

def wordBytes (w : Nat) : List Nat :=
  [(w >>> 24) % 256, (w >>> 16) % 256, (w >>> 8) % 256, w % 256]

def sha256 (msg : List Nat) : List Nat :=
  let Hf := (chunks64 (padMessage msg)).foldl processBlock sha256H0
  wordBytes Hf.a ++ wordBytes Hf.b ++ wordBytes Hf.c ++ wordBytes Hf.d ++
  wordBytes Hf.e ++ wordBytes Hf.f ++ wordBytes Hf.g ++ wordBytes Hf.h

/-- HMAC-SHA256 (FIPS 198-1), as `crypto.createHmac('sha256', key).update(msg)`. -/
def hmacSha256 (key msg : List Nat) : List Nat :=
  let k0 := if key.length > 64 then sha256 key else key
  let kp := k0 ++ List.replicate (64 - k0.length) 0
  let ipadKey := kp.map fun b => b ^^^ 54
  let opadKey := kp.map fun b => b ^^^ 92
  sha256 (opadKey ++ sha256 (ipadKey ++ msg))

/-! ## Webhook signature generation and verification

`WebhookService.generateSignature` signs `JSON.stringify(payload)` with the
subscription secret; the `payload` argument below is that serialized byte
sequence (the spec's signature properties quantify over payloads
byte-for-byte, so the model works directly on the signed bytes). Fallible
calls return an `Except`.

`WebhookService.verifyWebhookSignature` is broken at name resolution:
`webhooks.ts` imports only axios, the logger and the storage — the sole
`require('crypto')` in the module is local to `generateSignature` — so the
bare `crypto` in `crypto.timingSafeEqual(...)` is unbound there. Every call
therefore throws while resolving the callee (a ReferenceError; under a
runtime exposing global WebCrypto, which has no `timingSafeEqual`, a
TypeError), before any buffer is compared. `verifyWebhookSignature` models
that: it throws on every input. The comparison its body spells out — which
would execute only if `crypto` were bound — is kept as the separately named
`verifySignatureComparison`, over `timingSafeEqual` (which throws when the
two buffers have different byte lengths). -/

def timingSafeEqual (a b : List Nat) : Except String Bool :=
  if a.length = b.length then Except.ok (a == b)
  else Except.error "Input buffers must have the same byte length"

def generateSignature (payload secret : List Nat) : String :=
  hexEncode (hmacSha256 secret payload)

/-- The comparison written in the body of `verifyWebhookSignature`
(`crypto.timingSafeEqual(Buffer.from(signature, 'hex'),
Buffer.from(expectedSignature, 'hex'))`), as it would execute were `crypto`
bound in that module scope. In the shipped module this code is dead: the
callee reference throws first (see `verifyWebhookSignature`). -/
def verifySignatureComparison (payload : List Nat) (signature : String)
    (secret : List Nat) : Except String Bool :=
  let expectedSignature := generateSignature payload secret
  timingSafeEqual (hexDecodeNode signature) (hexDecodeNode expectedSignature)

/-- `WebhookService.verifyWebhookSignature` as shipped: `crypto` is unbound
in its scope, so the call throws before any comparison, for every input. -/
def verifyWebhookSignature (payload : List Nat) (signature : String)
    (secret : List Nat) : Except String Bool :=
  Except.error "crypto is not defined"

/-! ## Base-256 encoding of naturals

Used to exhibit a large family of distinct payloads for the counting argument
about signature verification (claim C7): `encodeBytes k n` is the `k`-digit
little-endian base-256 encoding of `n`, and `decodeBytes` its inverse. -/

def encodeBytes : Nat → Nat → List Nat
  | 0, _ => []
  | k + 1, n => n % 256 :: encodeBytes k (n / 256)

def decodeBytes (l : List Nat) : Nat :=
  l.foldr (fun b acc => b + 256 * acc) 0

/-! ## Data model and in-memory store

`Transaction` embeds the transaction record of `shared/schema.ts` restricted
to the fields the store and the verified routes read or write (`amount` is the
schema's decimal-as-text column; `mpesaReceiptNumber` is the stored provider
receipt; `checkoutRequestId` the provider correlation id). Timestamps are
milliseconds-since-epoch naturals. `MemStorage` is the `Map` keyed by
`transactionId` with JS insertion-order semantics (`mapSet` replaces an
existing key in place and appends a new one). `pendingSimulations` records the
`setTimeout` bodies that `MemStorage.createTransaction` schedules for mpesa
transactions (the 5-second demo completion); `simulatePayment` is that timer
body, its `Math.random() > 0.1` draw and generated receipt passed explicitly. -/

abbrev Time := Nat

structure Transaction where
  id : Nat
  transactionId : String
  userId : Nat
  amount : String
  currency : String
  provider : String
  paymentMethod : String
  phone : Option String
  reference : Option String
  description : Option String
  status : String
  checkoutRequestId : Option String
  mpesaReceiptNumber : Option String
  createdAt : Time
  updatedAt : Time
  completedAt : Option Time
  expiresAt : Time
  webhookAttempts : Nat
deriving DecidableEq

structure MemStorage where
  transactions : List (String × Transaction)
  currentTransactionId : Nat
  pendingSimulations : List String
deriving DecidableEq

def emptyStorage : MemStorage := ⟨[], 1, []⟩

def mapGet (l : List (String × Transaction)) (k : String) : Option Transaction :=
  match l with
  | [] => none
  | (k2, v) :: rest => if k2 = k then some v else mapGet rest k

def mapSet (l : List (String × Transaction)) (k : String) (v : Transaction) :
    List (String × Transaction) :=
  match l with
  | [] => [(k, v)]
  | (k2, v2) :: rest =>
    if k2 = k then (k, v) :: rest else (k2, v2) :: mapSet rest k v

def getTransaction (st : MemStorage) (transactionId : String) : Option Transaction :=
  mapGet st.transactions transactionId

/-- The partial-update object passed to `MemStorage.updateTransaction`. A
`none` field is absent from the JS object; `mpesaReceiptNumber` distinguishes
absent (`none`) from explicitly set to `null` (`some none`), which the demo
simulation uses on failure. -/
structure TransactionUpdates where
  status : Option String := none
  completedAt : Option Time := none
  mpesaReceiptNumber : Option (Option String) := none
  amount : Option String := none

def applyUpdates (t : Transaction) (u : TransactionUpdates) (now : Time) : Transaction :=
  { t with
    status := u.status.getD t.status
    completedAt := match u.completedAt with
      | some c => some c
      | none => t.completedAt
    mpesaReceiptNumber := u.mpesaReceiptNumber.getD t.mpesaReceiptNumber
    amount := u.amount.getD t.amount
    updatedAt := now }

/-- `MemStorage.updateTransaction`: merge the updates into the stored record
and refresh `updatedAt`; `none` when the key has no entry. -/
def updateTransaction (st : MemStorage) (transactionId : String)
    (u : TransactionUpdates) (now : Time) : Option Transaction × MemStorage :=
  match mapGet st.transactions transactionId with
  | none => (none, st)
  | some t =>
    let t2 := applyUpdates t u now
    (some t2, { st with transactions := mapSet st.transactions transactionId t2 })

/-- Caller-supplied fields of `MemStorage.createTransaction` (the validated
create-intent body plus the authenticated user id). -/
structure CreateIntentInput where
  userId : Nat
  amount : String
  currency : String
  provider : String
  paymentMethod : String
  phone : Option String
  reference : Option String
  description : Option String

/-- `MemStorage.createTransaction`. `freshId` stands for the generated
`txn_${nanoid(12)}`. For an mpesa transaction the correlation id is
`ws_CO_${Date.now()}` and a demo timer is scheduled that will complete or
fail the payment about 5 seconds later (`simulatePayment`). -/
def createTransaction (st : MemStorage) (input : CreateIntentInput)
    (freshId : String) (now : Time) : Transaction × MemStorage :=
  let checkoutRequestId :=
    if input.provider = "mpesa" then some ("ws_CO_" ++ toString now) else none
  let t : Transaction := {
    id := st.currentTransactionId
    transactionId := freshId
    userId := input.userId
    amount := input.amount
    currency := input.currency
    provider := input.provider
    paymentMethod := input.paymentMethod
    phone := input.phone
    reference := input.reference
    description := input.description
    status := "pending"
    checkoutRequestId := checkoutRequestId
    mpesaReceiptNumber := none
    createdAt := now
    updatedAt := now
    completedAt := none
    expiresAt := now + 30 * 60 * 1000
    webhookAttempts := 0 }
  let sims := if input.provider = "mpesa" then st.pendingSimulations ++ [freshId]
    else st.pendingSimulations
  (t, { transactions := mapSet st.transactions freshId t
        currentTransactionId := st.currentTransactionId + 1
        pendingSimulations := sims })

/-- The body of the demo `setTimeout` in `MemStorage.createTransaction`:
`success` models `Math.random() > 0.1` and `receipt` the generated
`NLJ...` receipt. On failure the receipt field is explicitly set to null. -/
def simulatePayment (st : MemStorage) (transactionId : String) (success : Bool)
    (receipt : String) (now : Time) : MemStorage :=
  (updateTransaction st transactionId
    { status := some (if success then "completed" else "failed")
      completedAt := some now
      mpesaReceiptNumber := some (if success then some receipt else none) } now).2

/-- `MemStorage.getTransactionsByUser`: filter by owner, then by the optional
status and provider filters, then slice `(page-1)*limit … +limit`
(pagination is applied in the store, before the route computes its total). -/
def getTransactionsByUser (st : MemStorage) (userId : Nat) (page limit : Nat)
    (status provider : Option String) : List Transaction :=
  let l1 := (st.transactions.map Prod.snd).filter fun t => t.userId = userId
  let l2 := match status with
    | some s => l1.filter fun (t : Transaction) => t.status = s
    | none => l1
  let l3 := match provider with
    | some p => l2.filter fun (t : Transaction) => t.provider = p
    | none => l2
  ((l3.drop ((page - 1) * limit)).take limit)

/-! ## Provider callback normalisation (mpesa.ts / equity.ts)

Callback payloads are the JSON shapes the services read, with every field the
JS code accesses optionally (`?.`) made an `Option`. JSON scalar values that
flow through untyped are `JVal`; JS numbers are modelled as exact rationals
(IEEE rounding and NaN do not affect any verified claim — the amount value is
only tested for truthiness and stringified). A non-array `CallbackMetadata.Item`
— the one payload shape that would make the JS handler throw — is not
representable in the typed model; within it the handlers are total, so the
routes' catch branches (404/500 for mpesa, 400 for equity) are unreachable. -/

inductive JVal where
  | str (s : String)
  | num (q : Rat)
deriving DecidableEq

/-- JS truthiness of an optional scalar (`undefined`, `""` and `0` are falsy). -/
def jsTruthy : Option JVal → Bool
  | none => false
  | some (JVal.str s) => s ≠ ""
  | some (JVal.num q) => q ≠ 0

/-- The raw value as stored into a text column / carried in JS. -/
def jvalString : JVal → String
  | JVal.str s => s
  | JVal.num q => toString q

structure MetaItem where
  name : String
  value : JVal
deriving DecidableEq

structure StkCallback where
  resultCode : Option JVal
  checkoutRequestID : Option String
  resultDesc : Option String
  callbackMetadataItem : Option (List MetaItem)
deriving DecidableEq

structure MpesaCallbackBody where
  stkCallback : Option StkCallback
deriving DecidableEq

structure MpesaCallback where
  body : Option MpesaCallbackBody
deriving DecidableEq

structure EquityCallback where
  status : Option String
  transactionId : Option String
  receiptNumber : Option JVal
  amount : Option JVal
  accountNumber : Option JVal
  message : Option String
deriving DecidableEq

/-- The normalised result both `handleWebhook` implementations return.
`transactionId` carries the mpesa `CheckoutRequestID` (or the equity
`transactionId`) and may be a missing JS value. -/
structure WebhookResult where
  transactionId : Option String
  status : String
  receiptNumber : Option JVal
  amount : Option JVal
  phone : Option JVal
  accountNumber : Option JVal
deriving DecidableEq

/-- `amount / 100` ("convert from cents") on the metadata value; a JS string
operand would be coerced to a number, which no claim exercises, so strings are
carried through unchanged. -/
def jvalDiv100 : JVal → JVal
  | JVal.num q => JVal.num (q / 100)
  | JVal.str s => JVal.str s

/-- `MpesaService.handleWebhook`: success iff `ResultCode === "0"` (strict
string comparison), extracting receipt, amount (divided by 100) and phone from
the callback metadata; the *transactionId* of the result is the callback's
`CheckoutRequestID`. -/
def mpesaHandleWebhook (p : MpesaCallback) : WebhookResult :=
  let stk := p.body.bind MpesaCallbackBody.stkCallback
  let resultCode := stk.bind StkCallback.resultCode
  let checkoutRequestId := stk.bind StkCallback.checkoutRequestID
  if resultCode = some (JVal.str "0") then
    let items := stk.bind StkCallback.callbackMetadataItem
    let fnd := fun nm => (items.bind fun l =>
      l.find? fun (i : MetaItem) => i.name = nm).map MetaItem.value
    { transactionId := checkoutRequestId
      status := "completed"
      receiptNumber := fnd "MpesaReceiptNumber"
      amount := (fnd "Amount").map jvalDiv100
      phone := fnd "PhoneNumber"
      accountNumber := none }
  else
    { transactionId := checkoutRequestId
      status := "failed"
      receiptNumber := none
      amount := none
      phone := none
      accountNumber := none }

/-- `EquityService.handleWebhook`: success iff `status === "SUCCESS"`. -/
def equityHandleWebhook (p : EquityCallback) : WebhookResult :=
  if p.status = some "SUCCESS" then
    { transactionId := p.transactionId
      status := "completed"
      receiptNumber := p.receiptNumber
      amount := p.amount
      phone := none
      accountNumber := p.accountNumber }
  else
    { transactionId := p.transactionId
      status := "failed"
      receiptNumber := none
      amount := none
      phone := none
      accountNumber := none }

/-- `WebhookService.processWebhook`: build the update object — status mapped
to `completed`/`failed`, `completedAt := now`, receipt and amount only when
truthy — and apply it under the result's transaction id as the map key. A
missing id matches no stored key. Afterwards the service re-reads the
transaction and fans the event out to the owner's active subscriber endpoints
(outbound HTTP plus delivery records, which never touch the transactions map
and are modelled separately by `deliverWebhook`); when the re-read finds
nothing it logs and returns, never throwing. -/
def webhookUpdates (r : WebhookResult) (now : Time) : TransactionUpdates :=
  { status := some (if r.status = "completed" then "completed" else "failed")
    completedAt := some now
    mpesaReceiptNumber :=
      if jsTruthy r.receiptNumber then (r.receiptNumber.map fun v => some (jvalString v))
      else none
    amount :=
      if jsTruthy r.amount then r.amount.map jvalString
      else none }

def processWebhook (st : MemStorage) (r : WebhookResult) (now : Time) : MemStorage :=
  match r.transactionId with
  | none => st
  | some tid => (updateTransaction st tid (webhookUpdates r now) now).2

/-! ## Route handlers (server/routes.ts)

HTTP outcomes carry the response status code; for `initiate` also whether a
Provider Adapter call was performed. The provider's external HTTP round-trip
is an input (`ProviderOutcome`): the route cannot observe it before making
the call. -/

inductive ProviderOutcome where
  | ok (checkoutRequestId merchantRequestId : String) (instructions : Option String)
  | err
deriving DecidableEq

/-- `POST /api/v1/payments/initiate/:transactionId` for an authenticated
`userId`: 404 unknown id, 403 foreign owner, 400 when not `pending`;
otherwise the status is set to `processing` and the provider service is
invoked for supported providers (mpesa, equity, paybill, till — a provider
failure propagates to the error middleware as 500 after the state change),
400 without a provider call for an unsupported provider. The returned `Bool`
records whether a provider-initiate side effect occurred. -/
def initiateRoute (st : MemStorage) (userId : Nat) (transactionId : String)
    (pr : ProviderOutcome) (now : Time) : Nat × MemStorage × Bool :=
  match getTransaction st transactionId with
  | none => (404, st, false)
  | some t =>
    if t.userId ≠ userId then (403, st, false)
    else if t.status ≠ "pending" then (400, st, false)
    else
      let st2 := (updateTransaction st transactionId { status := some "processing" } now).2
      if t.provider = "mpesa" ∨ t.provider = "equity" ∨
         t.provider = "paybill" ∨ t.provider = "till" then
        match pr with
        | ProviderOutcome.ok _ _ _ => (200, st2, true)
        | ProviderOutcome.err => (500, st2, true)
      else (400, st2, false)

/-- The transaction view `GET /api/v1/transactions/:transactionId` returns
(status code plus the fields the claims observe). -/
structure GetTxResponse where
  code : Nat
  txStatus : Option String
  mpesaReceiptNumber : Option String
  completedAt : Option Time
deriving DecidableEq

/-- `GET /api/v1/transactions/:transactionId`: 404 unknown, 403 when the
caller is neither the owner nor an admin, else the stored record. -/
def getTransactionRoute (st : MemStorage) (userId : Nat) (role : String)
    (transactionId : String) : GetTxResponse :=
  match getTransaction st transactionId with
  | none => ⟨404, none, none, none⟩
  | some t =>
    if t.userId ≠ userId ∧ role ≠ "admin" then ⟨403, none, none, none⟩
    else ⟨200, some t.status, t.mpesaReceiptNumber, t.completedAt⟩

/-- `GET /api/v1/transactions`: the page of records from the store and the
`pagination.total` the route reports — `transactions.length`, i.e. the length
of the already-sliced page. -/
def listTransactionsRoute (st : MemStorage) (userId : Nat) (page limit : Nat)
    (status provider : Option String) : List Transaction × Nat :=
  let transactions := getTransactionsByUser st userId page limit status provider
  (transactions, transactions.length)

/-- The mpesa ingress guard: `!Body || !Body.stkCallback ||
!Body.stkCallback.CheckoutRequestID` (an empty id string is falsy). -/
def mpesaStructValid (p : MpesaCallback) : Bool :=
  match p.body.bind MpesaCallbackBody.stkCallback with
  | none => false
  | some stk => match stk.checkoutRequestID with
    | none => false
    | some c => c ≠ ""

/-- `POST /api/v1/webhooks/mpesa`: 400 for a structurally malformed payload,
otherwise normalise, process, and answer 200. In the typed model the handlers
are total, so the handler's catch branches (404 "Transaction not found" /
500) never fire — an unknown correlation id only logs inside
`processWebhook`. -/
def mpesaWebhookRoute (st : MemStorage) (p : MpesaCallback) (now : Time) :
    Nat × MemStorage :=
  if mpesaStructValid p then
    (200, processWebhook st (mpesaHandleWebhook p) now)
  else (400, st)

/-- `POST /api/v1/webhooks/equity`: no structural guard; normalise, process,
answer 200 (the catch branch answering 400 requires a thrown error, which the
total model rules out). -/
def equityWebhookRoute (st : MemStorage) (p : EquityCallback) (now : Time) :
    Nat × MemStorage :=
  (200, processWebhook st (equityHandleWebhook p) now)

/-- `POST /api/v1/payments/create-intent` after validation: create the record
and answer 201 with the generated id. -/
def createIntentRoute (st : MemStorage) (input : CreateIntentInput)
    (freshId : String) (now : Time) : Nat × String × MemStorage :=
  let (t, st2) := createTransaction st input freshId now
  (201, t.transactionId, st2)

/-- Every modelled state-changing entry point of the system, for statements
quantifying over "every operation". -/
inductive SystemOp where
  | createIntent (input : CreateIntentInput) (freshId : String) (now : Time)
  | initiate (userId : Nat) (transactionId : String) (pr : ProviderOutcome) (now : Time)
  | mpesaHook (p : MpesaCallback) (now : Time)
  | equityHook (p : EquityCallback) (now : Time)
  | simulate (transactionId : String) (success : Bool) (receipt : String) (now : Time)

def applyOp (st : MemStorage) : SystemOp → MemStorage
  | SystemOp.createIntent input freshId now => (createIntentRoute st input freshId now).2.2
  | SystemOp.initiate userId tid pr now => (initiateRoute st userId tid pr now).2.1
  | SystemOp.mpesaHook p now => (mpesaWebhookRoute st p now).2
  | SystemOp.equityHook p now => (equityWebhookRoute st p now).2
  | SystemOp.simulate tid success receipt now => simulatePayment st tid success receipt now

/-! ## Webhook dispatch retries (WebhookService.deliverWebhook / scheduleRetry)

One delivery to one subscription endpoint. Each HTTP attempt's result is an
environment input (`AttemptResult`: a 2xx axios resolution, or a rejection
with an optional response status). Every attempt appends one delivery record
with a 1-based attempt number; a failed attempt schedules a retry after
`min(1000 * 2^(attempt-1), 30000)` ms while within the subscription's
`retryCount`. The returned lists are the appended delivery records and the
delays of the scheduled retry timers, in order. -/

inductive AttemptResult where
  | success (status : Nat)
  | failure (status : Option Nat)
deriving DecidableEq

structure DeliveryRecord where
  attempt : Nat
  success : Bool
  responseStatus : Option Nat
deriving DecidableEq

/-- `Math.min(1000 * Math.pow(2, attempt - 1), 30000)`. -/
def backoffDelay (attempt : Nat) : Nat := min (1000 * 2 ^ (attempt - 1)) 30000

/-- `WebhookService.scheduleRetry`, with the attempt outcomes that the
scheduled timers will observe. An exhausted outcome list means the scheduled
timer has not fired. -/
def scheduleRetry (retryCount attempt : Nat) (outcomes : List AttemptResult) :
    List DeliveryRecord × List Nat :=
  let delay := backoffDelay attempt
  match outcomes with
  | [] => ([], [delay])
  | o :: rest =>
    match o with
    | AttemptResult.success code => ([⟨attempt + 1, true, some code⟩], [delay])
    | AttemptResult.failure code =>
      if attempt < retryCount then
        let r := scheduleRetry retryCount (attempt + 1) rest
        (⟨attempt + 1, false, code⟩ :: r.1, delay :: r.2)
      else ([⟨attempt + 1, false, code⟩], [delay])

/-- `WebhookService.deliverWebhook`: first attempt, then retries while
`retryCount` allows. -/
def deliverWebhook (retryCount : Nat) (outcomes : List AttemptResult) :
    List DeliveryRecord × List Nat :=
  match outcomes with
  | [] => ([], [])
  | o :: rest =>
    match o with
    | AttemptResult.success code => ([⟨1, true, some code⟩], [])
    | AttemptResult.failure code =>
      if retryCount > 0 then
        let r := scheduleRetry retryCount 1 rest
        (⟨1, false, code⟩ :: r.1, r.2)
      else ([⟨1, false, code⟩], [])


/-! ## Concrete fixtures used by the counterexample and evaluation theorems -/

def exceptOk : Except String Bool → Bool
  | Except.ok _ => true
  | Except.error _ => false

/-- A validated create-intent body (the integration-test payment: 500 KES via
mpesa STK push). -/
def sampleIntentInput : CreateIntentInput :=
  { userId := 7
    amount := "500.00"
    currency := "KES"
    provider := "mpesa"
    paymentMethod := "stk_push"
    phone := some "254700000000"
    reference := some "INTEGRATION_TEST_001"
    description := some "Integration test payment" }

/-- A stored transaction template for fixture states. -/
def baseTxn : Transaction :=
  { id := 1
    transactionId := "txn_base"
    userId := 7
    amount := "500.00"
    currency := "KES"
    provider := "mpesa"
    paymentMethod := "stk_push"
    phone := some "254700000000"
    reference := some "REF1"
    description := some "fixture"
    status := "pending"
    checkoutRequestId := some "ws_CO_1000"
    mpesaReceiptNumber := none
    createdAt := 1000
    updatedAt := 1000
    completedAt := none
    expiresAt := 1801000
    webhookAttempts := 0 }

/-- C1 trace: create the intent at t=1000 (stored correlation id
`ws_CO_1000`), initiate at t=2000. -/
def c1AfterCreate : MemStorage :=
  (createTransaction emptyStorage sampleIntentInput "txn_c1" 1000).2

def c1AfterInitiate : MemStorage :=
  (initiateRoute c1AfterCreate 7 "txn_c1"
    (ProviderOutcome.ok "ws_CO_live" "MR_1" (some "enter PIN")) 2000).2.1

/-- A structurally valid successful mpesa callback whose `CheckoutRequestID`
equals the stored correlation id `ws_CO_1000`. -/
def c1Callback : MpesaCallback :=
  { body := some
      { stkCallback := some
          { resultCode := some (JVal.str "0")
            checkoutRequestID := some "ws_CO_1000"
            resultDesc := some "The service request is processed successfully."
            callbackMetadataItem := some
              [{ name := "Amount", value := JVal.num 500 },
               { name := "MpesaReceiptNumber", value := JVal.str "QK12345678" },
               { name := "PhoneNumber", value := JVal.num 254700000000 }] } } }

def c1AfterWebhook : MemStorage := (mpesaWebhookRoute c1AfterInitiate c1Callback 3000).2

/-- C2 fixture: a COMPLETED transaction stored under key `txn_done`. -/
def c2StoredTxn : Transaction :=
  { baseTxn with
    transactionId := "txn_done", status := "completed",
    completedAt := some 2000, mpesaReceiptNumber := some "QK111" }

def c2Store : MemStorage := ⟨[("txn_done", c2StoredTxn)], 2, []⟩

/-- A structurally valid failed callback whose `CheckoutRequestID` is the
stored transaction key `txn_done`. -/
def c2FailCallback : MpesaCallback :=
  { body := some
      { stkCallback := some
          { resultCode := some (JVal.num 1)
            checkoutRequestID := some "txn_done"
            resultDesc := some "The balance is insufficient for the transaction."
            callbackMetadataItem := none } } }

/-- C3 fixture: a PROCESSING transaction stored under key `txn_i`, and a
successful callback carrying that key as its correlation id. -/
def c3StoredTxn : Transaction :=
  { baseTxn with transactionId := "txn_i", status := "processing" }

def c3Store : MemStorage := ⟨[("txn_i", c3StoredTxn)], 2, []⟩

def c3Callback : MpesaCallback :=
  { body := some
      { stkCallback := some
          { resultCode := some (JVal.str "0")
            checkoutRequestID := some "txn_i"
            resultDesc := some "ok"
            callbackMetadataItem := some
              [{ name := "MpesaReceiptNumber", value := JVal.str "QK222" }] } } }

def c3AfterFirst : MemStorage := (mpesaWebhookRoute c3Store c3Callback 1000).2

def c3AfterSecond : MemStorage := (mpesaWebhookRoute c3AfterFirst c3Callback 2000).2

/-- C4 fixture: a PENDING transaction whose expiry (t=500) has long passed. -/
def c4StoredTxn : Transaction :=
  { baseTxn with transactionId := "txn_e", expiresAt := 500 }

def c4Store : MemStorage := ⟨[("txn_e", c4StoredTxn)], 2, []⟩

/-- C8 fixture: 25 matching transactions for owner 7. -/
def c8Txn (i : Nat) : Transaction :=
  { baseTxn with
    id := i + 1, transactionId := "txn_" ++ toString i,
    createdAt := i, updatedAt := i }

def c8Store : MemStorage :=
  ⟨(List.range 25).map fun i => ("txn_" ++ toString i, c8Txn i), 26, []⟩

/-- C9 trace: create an mpesa intent at t=0; the demo timer scheduled by
creation fires at t=5000 with a successful draw. -/
def c9AfterCreate : MemStorage :=
  (createTransaction emptyStorage sampleIntentInput "txn_c9" 0).2

def c9AfterTimer : MemStorage :=
  simulatePayment c9AfterCreate "txn_c9" true "NLJRECEIPT1" 5000

/-- A successful equity callback fixture. -/
def sampleEquityCallback : EquityCallback :=
  { status := some "SUCCESS"
    transactionId := some "txn_x"
    receiptNumber := some (JVal.str "EQR1")
    amount := some (JVal.num 100)
    accountNumber := some (JVal.str "ACC1")
    message := none }

/-- A subscription signing secret (`whsec_key` as bytes). -/
def webhookSecret : List Nat := [119, 104, 115, 101, 99, 95, 107, 101, 121]

/-- The HMAC-SHA256 digest of the 33-byte payload encoding `n`, read back as
a number (below 256^32); used for the counting argument about signature
collisions. -/
def digestNum (n : Nat) : Nat :=
  decodeBytes (hmacSha256 webhookSecret (encodeBytes 33 n))

/-! ### Structural lemmas about the crypto layer -/

theorem wordBytes_length (w : Nat) : (wordBytes w).length = 4 := rfl

theorem wordBytes_lt (w : Nat) : ∀ x ∈ wordBytes w, x < 256 := by
  intro x hx
  simp only [wordBytes, List.mem_cons, List.not_mem_nil, or_false] at hx
  rcases hx with h | h | h | h <;> subst h <;> exact Nat.mod_lt _ (by norm_num)

theorem sha256_length (msg : List Nat) : (sha256 msg).length = 32 := by
  simp [sha256, wordBytes]

theorem sha256_lt (msg : List Nat) : ∀ x ∈ sha256 msg, x < 256 := by
  intro x hx
  simp only [sha256, List.mem_append] at hx
  rcases hx with ((((((h | h) | h) | h) | h) | h) | h) | h <;>
    exact wordBytes_lt _ _ h

theorem hmacSha256_length (key msg : List Nat) :
    (hmacSha256 key msg).length = 32 := by
  simp [hmacSha256, sha256_length]

theorem hmacSha256_lt (key msg : List Nat) :
    ∀ x ∈ hmacSha256 key msg, x < 256 := by
  simp only [hmacSha256]
  exact sha256_lt _

theorem hexVal_hexDigitChar : ∀ n < 16, hexVal (hexDigitChar n) = some n := by
  decide

theorem hexDecode_hexEncode (bs : List Nat) (h : ∀ x ∈ bs, x < 256) :
    hexDecodeChars (hexEncodeBytes bs) = bs := by
  induction bs with
  | nil => rfl
  | cons b rest ih =>
    have hb : b < 256 := h b (List.mem_cons_self _ _)
    have h1 : b / 16 < 16 := Nat.div_lt_of_lt_mul (by omega)
    have h2 : b % 16 < 16 := Nat.mod_lt _ (by norm_num)
    simp only [hexEncodeBytes, List.foldr_cons, hexDecodeChars,
      hexVal_hexDigitChar _ h1, hexVal_hexDigitChar _ h2]
    rw [show hexEncodeBytes rest =
      rest.foldr (fun b acc => hexDigitChar (b / 16) :: hexDigitChar (b % 16) :: acc) []
      from rfl] at ih
    rw [ih fun x hx => h x (List.mem_cons_of_mem _ hx)]
    congr 1
    omega

theorem hexDecodeNode_hexEncode (bs : List Nat) (h : ∀ x ∈ bs, x < 256) :
    hexDecodeNode (hexEncode bs) = bs := by
  simpa [hexDecodeNode, hexEncode] using hexDecode_hexEncode bs h

theorem encodeBytes_length (k n : Nat) : (encodeBytes k n).length = k := by
  induction k generalizing n with
  | zero => rfl
  | succ k ih => simp [encodeBytes, ih]

theorem encodeBytes_lt (k n : Nat) : ∀ x ∈ encodeBytes k n, x < 256 := by
  induction k generalizing n with
  | zero => simp [encodeBytes]
  | succ k ih =>
    intro x hx
    simp only [encodeBytes, List.mem_cons] at hx
    rcases hx with h | h
    · subst h; exact Nat.mod_lt _ (by norm_num)
    · exact ih _ x h

theorem decodeBytes_encodeBytes (k n : Nat) :
    decodeBytes (encodeBytes k n) = n % 256 ^ k := by
  induction k generalizing n with
  | zero => simp [encodeBytes, decodeBytes, Nat.mod_one]
  | succ k ih =>
    simp only [encodeBytes, decodeBytes, List.foldr_cons]
    rw [show List.foldr (fun b acc => b + 256 * acc) 0 (encodeBytes k (n / 256)) =
      decodeBytes (encodeBytes k (n / 256)) from rfl, ih]
    rw [Nat.pow_succ', Nat.mod_mul]

theorem decodeBytes_lt (l : List Nat) (h : ∀ x ∈ l, x < 256) :
    decodeBytes l < 256 ^ l.length := by
  induction l with
  | nil => simp [decodeBytes]
  | cons b rest ih =>
    have hb : b < 256 := h b (List.mem_cons_self _ _)
    have hr : decodeBytes rest < 256 ^ rest.length :=
      ih fun x hx => h x (List.mem_cons_of_mem _ hx)
    simp only [decodeBytes, List.foldr_cons] at *
    rw [List.length_cons, Nat.pow_succ']
    omega

theorem decodeBytes_injOn (l1 l2 : List Nat) (hlen : l1.length = l2.length)
    (h1 : ∀ x ∈ l1, x < 256) (h2 : ∀ x ∈ l2, x < 256)
    (hdec : decodeBytes l1 = decodeBytes l2) : l1 = l2 := by
  induction l1 generalizing l2 with
  | nil => cases l2 with
    | nil => rfl
    | cons b t => simp at hlen
  | cons b1 t1 ih =>
    cases l2 with
    | nil => simp at hlen
    | cons b2 t2 =>
      have hb1 : b1 < 256 := h1 b1 (List.mem_cons_self _ _)
      have hb2 : b2 < 256 := h2 b2 (List.mem_cons_self _ _)
      simp only [decodeBytes, List.foldr_cons] at hdec
      have ht1 : List.foldr (fun b acc => b + 256 * acc) 0 t1 = decodeBytes t1 := rfl
      have ht2 : List.foldr (fun b acc => b + 256 * acc) 0 t2 = decodeBytes t2 := rfl
      rw [ht1, ht2] at hdec
      have hb : b1 = b2 ∧ decodeBytes t1 = decodeBytes t2 := by omega
      have : t1 = t2 := ih t2 (by simpa using hlen)
        (fun x hx => h1 x (List.mem_cons_of_mem _ hx))
        (fun x hx => h2 x (List.mem_cons_of_mem _ hx)) hb.2
      rw [hb.1, this]

/-! ## Store lemmas -/

theorem mapGet_mapSet (l : List (String × Transaction)) (k tid : String)
    (v : Transaction) :
    mapGet (mapSet l k v) tid = if k = tid then some v else mapGet l tid := by
  induction l with
  | nil =>
    by_cases h : k = tid <;> simp [mapSet, mapGet, h]
  | cons hd tl ih =>
    obtain ⟨k2, v2⟩ := hd
    by_cases h1 : k2 = k
    · subst h1
      by_cases h2 : k2 = tid <;> simp [mapSet, mapGet, h2]
    · by_cases h2 : k2 = tid
      · subst h2
        have : ¬ (k = k2) := fun hc => h1 hc.symm
        simp [mapSet, mapGet, h1, this]
      · simp [mapSet, mapGet, h1, h2, ih]

theorem getTransaction_updateTransaction (st : MemStorage) (tid tid2 : String)
    (u : TransactionUpdates) (now : Time) :
    getTransaction (updateTransaction st tid u now).2 tid2 =
      match mapGet st.transactions tid with
      | none => getTransaction st tid2
      | some t => if tid = tid2 then some (applyUpdates t u now)
                  else getTransaction st tid2 := by
  unfold updateTransaction getTransaction
  cases h : mapGet st.transactions tid with
  | none => simp
  | some t => simp [mapGet_mapSet]

theorem getTransaction_isSome_updateTransaction (st : MemStorage)
    (tid tid2 : String) (u : TransactionUpdates) (now : Time)
    (h : (getTransaction st tid2).isSome) :
    (getTransaction (updateTransaction st tid u now).2 tid2).isSome := by
  rw [getTransaction_updateTransaction]
  cases hg : mapGet st.transactions tid with
  | none => exact h
  | some t =>
    by_cases he : tid = tid2 <;> simp [he, h]

theorem getTransaction_createTransaction (st : MemStorage)
    (input : CreateIntentInput) (freshId tid : String) (now : Time)
    (h : (getTransaction st tid).isSome) :
    (getTransaction (createTransaction st input freshId now).2 tid).isSome := by
  unfold createTransaction getTransaction
  simp only [mapGet_mapSet]
  by_cases he : freshId = tid <;> simp [he]
  exact h

theorem getTransaction_processWebhook (st : MemStorage) (r : WebhookResult)
    (now : Time) (tid : String) (h : (getTransaction st tid).isSome) :
    (getTransaction (processWebhook st r now) tid).isSome := by
  unfold processWebhook
  cases r.transactionId with
  | none => exact h
  | some t2 => exact getTransaction_isSome_updateTransaction _ _ _ _ _ h

theorem getTransaction_updateTransaction_found (st : MemStorage) (tid : String)
    (u : TransactionUpdates) (now : Time) (t : Transaction)
    (ht : getTransaction st tid = some t) :
    getTransaction (updateTransaction st tid u now).2 tid
      = some (applyUpdates t u now) := by
  unfold getTransaction at ht ⊢
  unfold updateTransaction
  rw [ht]
  simp [mapGet_mapSet]

theorem getTransaction_processWebhook_found (st : MemStorage) (r : WebhookResult)
    (now : Time) (tid : String) (t : Transaction)
    (hid : r.transactionId = some tid) (ht : getTransaction st tid = some t) :
    getTransaction (processWebhook st r now) tid
      = some (applyUpdates t (webhookUpdates r now) now) := by
  unfold processWebhook
  rw [hid]
  exact getTransaction_updateTransaction_found st tid _ now t ht

theorem applyUpdates_webhookUpdates_fields (t : Transaction) (r : WebhookResult)
    (now : Time) :
    (applyUpdates t (webhookUpdates r now) now).status
      = (if r.status = "completed" then "completed" else "failed")
    ∧ (applyUpdates t (webhookUpdates r now) now).completedAt = some now
    ∧ (applyUpdates t (webhookUpdates r now) now).updatedAt = now := by
  refine ⟨?_, rfl, rfl⟩
  by_cases h : r.status = "completed" <;> simp [applyUpdates, webhookUpdates, h]

theorem initiateRoute_not_pending (st : MemStorage) (userId : Nat) (tid : String)
    (pr : ProviderOutcome) (now : Time) (t : Transaction)
    (ht : getTransaction st tid = some t) (hnp : t.status ≠ "pending") :
    initiateRoute st userId tid pr now
      = (if t.userId ≠ userId then 403 else 400, st, false) := by
  unfold initiateRoute
  rw [ht]
  by_cases h : t.userId = userId <;> simp [h, hnp]

/-! ## Signature verification lemmas -/

theorem hexDecodeNode_generateSignature (p s : List Nat) :
    hexDecodeNode (generateSignature p s) = hmacSha256 s p :=
  hexDecodeNode_hexEncode _ (hmacSha256_lt _ _)

theorem digestNum_lt (n : Nat) : digestNum n < 256 ^ 32 := by
  have h1 := decodeBytes_lt (hmacSha256 webhookSecret (encodeBytes 33 n))
    (hmacSha256_lt _ _)
  rwa [hmacSha256_length] at h1

theorem verify_ok_true_iff (p p2 s s2 : List Nat) :
    verifySignatureComparison p2 (generateSignature p s) s2 = Except.ok true
      ↔ hmacSha256 s2 p2 = hmacSha256 s p := by
  unfold verifySignatureComparison timingSafeEqual
  rw [hexDecodeNode_generateSignature p s]
  simp only []
  rw [hexDecodeNode_generateSignature p2 s2]
  rw [if_pos (show (hmacSha256 s p).length = (hmacSha256 s2 p2).length by
    rw [hmacSha256_length, hmacSha256_length])]
  constructor
  · intro h
    have hb : (hmacSha256 s p == hmacSha256 s2 p2) = true := by injection h
    exact (beq_iff_eq.mp hb).symm
  · intro h
    rw [h, beq_self_eq_true]

/-- Under the body's comparison, among the 256^33 payloads of 33 bytes there
are two distinct ones whose HMAC-SHA256 digests under the same secret
coincide (the digest space has only 256^32 elements), and the signature of
the one verifies against the other. No such pair is feasibly computable. -/
theorem signatureComparison_collision_exists :
    ∃ p p2 : List Nat, p.length = 33 ∧ p2.length = 33 ∧ p ≠ p2
      ∧ verifySignatureComparison p2 (generateSignature p webhookSecret) webhookSecret
        = Except.ok true := by
  have hcard : Fintype.card (Fin (256 ^ 32)) < Fintype.card (Fin (256 ^ 33)) := by
    rw [Fintype.card_fin, Fintype.card_fin]
    exact Nat.pow_lt_pow_right (by norm_num) (by norm_num)
  obtain ⟨n, m, hne, heq⟩ := Fintype.exists_ne_map_eq_of_card_lt
    (fun k : Fin (256 ^ 33) =>
      (⟨digestNum k.val, digestNum_lt k.val⟩ : Fin (256 ^ 32))) hcard
  refine ⟨encodeBytes 33 n.val, encodeBytes 33 m.val, encodeBytes_length _ _,
    encodeBytes_length _ _, ?_, ?_⟩
  · intro hc
    apply hne
    have h1 : decodeBytes (encodeBytes 33 n.val) = decodeBytes (encodeBytes 33 m.val) := by
      rw [hc]
    rw [decodeBytes_encodeBytes, decodeBytes_encodeBytes] at h1
    exact Fin.ext (by rwa [Nat.mod_eq_of_lt n.isLt, Nat.mod_eq_of_lt m.isLt] at h1)
  · rw [verify_ok_true_iff]
    have hF : digestNum n.val = digestNum m.val := by
      have h2 := heq
      simp only [Fin.mk.injEq] at h2
      exact h2
    have hF2 : decodeBytes (hmacSha256 webhookSecret (encodeBytes 33 n.val))
        = decodeBytes (hmacSha256 webhookSecret (encodeBytes 33 m.val)) := hF
    exact (decodeBytes_injOn _ _
      (by rw [hmacSha256_length, hmacSha256_length])
      (hmacSha256_lt _ _) (hmacSha256_lt _ _) hF2).symm

/-! ## Claim theorems -/

/-- Claim C7 (counterexample): the round-trip half of the claim fails at a
concrete input — recomputing the signature over the byte-for-byte identical
payload `[5, 6, 7]` with the signing secret does not verify successfully:
the shipped `verifyWebhookSignature` throws (`crypto` is unbound in its
scope), so the call is an error, not a successful verification. -/
theorem c7_roundtrip_does_not_verify :
    verifyWebhookSignature [5, 6, 7] (generateSignature [5, 6, 7] webhookSecret)
      webhookSecret = Except.error "crypto is not defined"
    ∧ verifyWebhookSignature [5, 6, 7] (generateSignature [5, 6, 7] webhookSecret)
      webhookSecret ≠ Except.ok true :=
  ⟨rfl, by simp [verifyWebhookSignature]⟩

/-- Claim C7 (amended): `generateSignature` is deterministic, but as shipped
the consumer-side verification never succeeds on any input — every call
throws, since `crypto` is unbound in its scope — so the identical payload
does not verify, and a mutated payload or wrong secret indeed never verifies
(nothing does). The comparison the method's body spells out, were `crypto`
bound, verifies the round-trip and succeeds exactly when the candidate's
HMAC-SHA256 digest equals the signed payload's digest; under it a mutated
payload fails unless the digests collide, which happens for some pairs of
distinct payloads (by counting), none feasibly computable. -/
theorem c7_signature_roundtrip_amended :
    (∀ (p s : List Nat) (sig : String),
      verifyWebhookSignature p sig s ≠ Except.ok true)
    ∧ (∀ p s : List Nat,
      verifySignatureComparison p (generateSignature p s) s = Except.ok true)
    ∧ (∀ p p2 s s2 : List Nat,
      (verifySignatureComparison p2 (generateSignature p s) s2 = Except.ok true
        ↔ hmacSha256 s2 p2 = hmacSha256 s p))
    ∧ (∃ p p2 : List Nat, p.length = 33 ∧ p2.length = 33 ∧ p ≠ p2
        ∧ verifySignatureComparison p2 (generateSignature p webhookSecret) webhookSecret
          = Except.ok true) := by
  refine ⟨fun p s sig => by simp [verifyWebhookSignature], fun p s => ?_,
    fun p p2 s s2 => verify_ok_true_iff p p2 s s2,
    signatureComparison_collision_exists⟩
  rw [verify_ok_true_iff]

/-- Claim C10 (counterexample): the claim says verification returns a
boolean verdict when the decoded signature has the 32-byte digest length;
at a concrete such input — the honestly recomputed 64-hex-character
signature of payload `[9]` — the shipped function still throws: `crypto`
is unbound in its scope, so no input ever reaches the length comparison. -/
theorem c10_no_verdict_on_valid_length :
    (hexDecodeNode (generateSignature [9] webhookSecret)).length = 32
    ∧ verifyWebhookSignature [9] (generateSignature [9] webhookSecret) webhookSecret
      = Except.error "crypto is not defined" := by
  refine ⟨?_, rfl⟩
  rw [hexDecodeNode_generateSignature]
  exact hmacSha256_length _ _

/-- Claim C10 (amended): the verification operation is not total in a
stronger sense than claimed — it never returns a boolean verdict: every call
throws, because the `crypto` referenced by `crypto.timingSafeEqual` is
unbound in the module scope (the sole `require('crypto')` is local to
`generateSignature`), a failure that precedes any length comparison. The
claimed behaviour — an exception exactly for signatures whose hex decoding
differs from the 32-byte HMAC-SHA256 digest length (e.g. a truncated or
empty signature header), a boolean verdict otherwise — holds of the
comparison the body spells out, were `crypto` bound. -/
theorem c10_verification_partiality :
    (∀ (payload secret : List Nat) (sig : String),
      verifyWebhookSignature payload sig secret = Except.error "crypto is not defined")
    ∧ (∀ (payload secret : List Nat) (sig : String),
      (exceptOk (verifySignatureComparison payload sig secret) = true
        ↔ (hexDecodeNode sig).length = 32))
    ∧ (∀ payload secret : List Nat, (hmacSha256 secret payload).length = 32)
    ∧ (∀ payload secret : List Nat,
      verifySignatureComparison payload "" secret
        = Except.error "Input buffers must have the same byte length") := by
  refine ⟨fun payload secret sig => rfl, fun payload secret sig => ?_,
    fun payload secret => hmacSha256_length _ _, fun payload secret => ?_⟩
  · unfold verifySignatureComparison timingSafeEqual
    simp only []
    rw [hexDecodeNode_generateSignature payload secret]
    by_cases h : (hexDecodeNode sig).length = 32
    · rw [if_pos (by rw [hmacSha256_length]; exact h)]
      simpa [exceptOk] using h
    · rw [if_neg (by rw [hmacSha256_length]; exact fun hc => h hc)]
      simpa [exceptOk] using h
  · unfold verifySignatureComparison timingSafeEqual
    simp only []
    rw [hexDecodeNode_generateSignature payload secret]
    rw [if_neg (by rw [hmacSha256_length]; intro hc; exact absurd hc (by decide))]

theorem mpesaWebhookRoute_valid (st : MemStorage) (p : MpesaCallback) (now : Time)
    (hv : mpesaStructValid p = true) :
    mpesaWebhookRoute st p now = (200, processWebhook st (mpesaHandleWebhook p) now) := by
  simp [mpesaWebhookRoute, hv]

/-- Claim C5: on the provider webhook ingress routes, a structurally valid
payload handed to webhook processing always answers 200 — also when the
transition is a no-op or the referenced transaction cannot be resolved — the
mpesa route answers 400 exactly for structurally malformed payloads, and no
provider-side business failure produces a 500 (the routes' error branches
require a thrown exception, which the total model of the handlers and the
store rules out). -/
theorem c5_webhook_ingress_codes (st : MemStorage) (p : MpesaCallback)
    (q : EquityCallback) (now : Time) :
    (mpesaWebhookRoute st p now).1 = (if mpesaStructValid p then 200 else 400)
    ∧ (equityWebhookRoute st q now).1 = 200 := by
  constructor
  · by_cases h : mpesaStructValid p <;> simp [mpesaWebhookRoute, h]
  · rfl

/-- Claim C6: for a subscription with retry limit at least 2, a delivery
failing its first two HTTP attempts and succeeding on the third produces
exactly three delivery records — two failed, one success — with strictly
increasing attempt numbers 1, 2, 3, and the scheduled retry delays follow
`min(1000 * 2^(attempt-1), 30000)`: 1000 ms then 2000 ms, increasing. -/
theorem c6_retry_three_attempts (retryCount : Nat) (h : 2 ≤ retryCount) (code : Nat) :
    deliverWebhook retryCount
      [AttemptResult.failure none, AttemptResult.failure none, AttemptResult.success code]
      = ([⟨1, false, none⟩, ⟨2, false, none⟩, ⟨3, true, some code⟩], [1000, 2000])
    ∧ backoffDelay 1 = 1000 ∧ backoffDelay 2 = 2000 ∧ backoffDelay 3 = 4000
    ∧ backoffDelay 6 = 30000 ∧ backoffDelay 7 = 30000
    ∧ (1000 : Nat) < 2000 := by
  have h0 : retryCount > 0 := by omega
  have h1 : 1 < retryCount := by omega
  refine ⟨?_, rfl, rfl, rfl, rfl, rfl, by norm_num⟩
  simp [deliverWebhook, scheduleRetry, h0, h1, backoffDelay]

theorem c6_retry_three_attempts_witness :
    deliverWebhook 2
      [AttemptResult.failure none, AttemptResult.failure none, AttemptResult.success 200]
      = ([⟨1, false, none⟩, ⟨2, false, none⟩, ⟨3, true, some 200⟩], [1000, 2000])
    ∧ backoffDelay 1 = 1000 ∧ backoffDelay 2 = 2000 ∧ backoffDelay 3 = 4000
    ∧ backoffDelay 6 = 30000 ∧ backoffDelay 7 = 30000
    ∧ (1000 : Nat) < 2000 :=
  c6_retry_three_attempts 2 (by norm_num) 200

/-- Claim C8: the spec says the reported `total` equals the number of
matching records before pagination; the code slices in the store and the
route reports `transactions.length` of the already-sliced page — with 25
matching records, page=2 and limit=10 it returns the records at positions
11–20 but total=10, not 25 (the repository's own test expects 25 and its
test summary records this as a pagination bug). -/
theorem c8_pagination_total_is_page_size :
    ((c8Store.transactions.map Prod.snd).filter fun t => t.userId = 7).length = 25
    ∧ (listTransactionsRoute c8Store 7 2 10 none none).2 = 10
    ∧ (listTransactionsRoute c8Store 7 2 10 none none).1.map Transaction.transactionId
      = ["txn_10", "txn_11", "txn_12", "txn_13", "txn_14",
         "txn_15", "txn_16", "txn_17", "txn_18", "txn_19"] :=
  ⟨by decide, by decide, by decide⟩

/-- Claim C1: after create-intent (mpesa, correlation id `ws_CO_1000`) and
initiation, processing a structurally valid successful callback whose
`CheckoutRequestID` equals the stored correlation id answers 200 but leaves
the stored transaction completely unchanged — still PROCESSING, no receipt,
no completedAt — because `processWebhook` uses the `CheckoutRequestID` as
the storage-map key, and the map is keyed by the `txn_...` id (the
repository's own integration test expects COMPLETED here). -/
theorem c1_matching_callback_leaves_transaction_unchanged :
    (getTransaction c1AfterInitiate "txn_c1").map Transaction.status = some "processing"
    ∧ (getTransaction c1AfterInitiate "txn_c1").bind Transaction.checkoutRequestId
      = some "ws_CO_1000"
    ∧ (c1Callback.body.bind MpesaCallbackBody.stkCallback).bind StkCallback.checkoutRequestID
      = some "ws_CO_1000"
    ∧ mpesaStructValid c1Callback = true
    ∧ (mpesaHandleWebhook c1Callback).status = "completed"
    ∧ (mpesaWebhookRoute c1AfterInitiate c1Callback 3000).1 = 200
    ∧ getTransactionRoute c1AfterWebhook 7 "merchant" "txn_c1"
      = ⟨200, some "processing", none, none⟩
    ∧ c1AfterWebhook = c1AfterInitiate := by decide

/-- Claim C2 (counterexample): terminal states are not absorbing — a stored
COMPLETED transaction is overwritten to FAILED by processing a structurally
valid failed callback whose correlation id equals the stored key. -/
theorem c2_terminal_status_overwritten :
    c2StoredTxn.status = "completed"
    ∧ (mpesaWebhookRoute c2Store c2FailCallback 5000).1 = 200
    ∧ (getTransaction (mpesaWebhookRoute c2Store c2FailCallback 5000).2 "txn_done").map
        Transaction.status = some "failed" := by decide

/-- Claim C2 (amended): terminal statuses are not absorbing under webhook
processing — processing a structurally valid callback that resolves to a
stored transaction sets its status to the callback outcome regardless of the
current (in particular terminal) status; among the remaining operations,
initiation leaves a transaction in a terminal status unchanged (it requires
status PENDING), and reads change nothing. -/
theorem c2_terminal_not_absorbing_amended (st : MemStorage) (p : MpesaCallback)
    (now : Time) (tid : String) (t : Transaction) (userId : Nat) (pr : ProviderOutcome)
    (hv : mpesaStructValid p = true)
    (hid : (mpesaHandleWebhook p).transactionId = some tid)
    (ht : getTransaction st tid = some t)
    (hterm : t.status = "completed" ∨ t.status = "failed" ∨ t.status = "cancelled"
      ∨ t.status = "refunded") :
    (mpesaWebhookRoute st p now).1 = 200
    ∧ (getTransaction (mpesaWebhookRoute st p now).2 tid).map Transaction.status
      = some (if (mpesaHandleWebhook p).status = "completed" then "completed" else "failed")
    ∧ (initiateRoute st userId tid pr now).2.1 = st := by
  have hnp : t.status ≠ "pending" := by rcases hterm with h | h | h | h <;> simp [h]
  refine ⟨by simp [mpesaWebhookRoute, hv], ?_, ?_⟩
  · have h2 := getTransaction_processWebhook_found st (mpesaHandleWebhook p) now tid t hid ht
    have h3 := applyUpdates_webhookUpdates_fields t (mpesaHandleWebhook p) now
    rw [mpesaWebhookRoute_valid st p now hv]
    simp [h2, h3.1]
  · rw [initiateRoute_not_pending st userId tid pr now t ht hnp]

theorem c2_terminal_not_absorbing_amended_witness :
    (mpesaWebhookRoute c2Store c2FailCallback 5000).1 = 200
    ∧ (getTransaction (mpesaWebhookRoute c2Store c2FailCallback 5000).2 "txn_done").map
        Transaction.status
      = some (if (mpesaHandleWebhook c2FailCallback).status = "completed"
          then "completed" else "failed")
    ∧ (initiateRoute c2Store 9 "txn_done" ProviderOutcome.err 5000).2.1 = c2Store :=
  c2_terminal_not_absorbing_amended c2Store c2FailCallback 5000 "txn_done" c2StoredTxn 9
    ProviderOutcome.err (by decide) (by decide) (by decide) (by decide)

/-- Claim C3 (counterexample): processing the same successful callback
twice is accepted both times (200) and leaves the terminal status unchanged,
but the timestamps are not identical after the two deliveries — the second
processing refreshes `completedAt` (1000 → 2000). -/
theorem c3_duplicate_callback_refreshes_timestamps :
    (mpesaWebhookRoute c3Store c3Callback 1000).1 = 200
    ∧ (mpesaWebhookRoute c3AfterFirst c3Callback 2000).1 = 200
    ∧ (getTransaction c3AfterFirst "txn_i").map Transaction.status = some "completed"
    ∧ (getTransaction c3AfterSecond "txn_i").map Transaction.status = some "completed"
    ∧ (getTransaction c3AfterFirst "txn_i").map Transaction.completedAt = some (some 1000)
    ∧ (getTransaction c3AfterSecond "txn_i").map Transaction.completedAt = some (some 2000)
    ∧ (getTransaction c3AfterSecond "txn_i").map Transaction.completedAt
      ≠ (getTransaction c3AfterFirst "txn_i").map Transaction.completedAt := by decide

/-- Claim C3 (amended): duplicate delivery of the same successful callback is
accepted as a non-error (200) both times and the terminal status is the same
after both deliveries, but the transaction's `completedAt` and `updatedAt`
are refreshed to each processing time — the timestamps after the second
processing equal those after the first only when the two deliveries are
processed at the same timestamp. -/
theorem c3_duplicate_callback_amended (st : MemStorage) (p : MpesaCallback)
    (t1Time t2Time : Time) (tid : String) (t : Transaction)
    (hv : mpesaStructValid p = true)
    (hid : (mpesaHandleWebhook p).transactionId = some tid)
    (hcs : (mpesaHandleWebhook p).status = "completed")
    (ht : getTransaction st tid = some t) :
    (mpesaWebhookRoute st p t1Time).1 = 200
    ∧ (mpesaWebhookRoute (mpesaWebhookRoute st p t1Time).2 p t2Time).1 = 200
    ∧ (getTransaction (mpesaWebhookRoute st p t1Time).2 tid).map Transaction.status
      = some "completed"
    ∧ (getTransaction (mpesaWebhookRoute st p t1Time).2 tid).map Transaction.completedAt
      = some (some t1Time)
    ∧ (getTransaction (mpesaWebhookRoute (mpesaWebhookRoute st p t1Time).2 p t2Time).2
        tid).map Transaction.status = some "completed"
    ∧ (getTransaction (mpesaWebhookRoute (mpesaWebhookRoute st p t1Time).2 p t2Time).2
        tid).map Transaction.completedAt = some (some t2Time)
    ∧ (getTransaction (mpesaWebhookRoute (mpesaWebhookRoute st p t1Time).2 p t2Time).2
        tid).map Transaction.updatedAt = some t2Time := by
  have h1 := getTransaction_processWebhook_found st (mpesaHandleWebhook p) t1Time tid t hid ht
  have hf1 := applyUpdates_webhookUpdates_fields t (mpesaHandleWebhook p) t1Time
  have h2 := getTransaction_processWebhook_found
    (processWebhook st (mpesaHandleWebhook p) t1Time) (mpesaHandleWebhook p) t2Time tid
    (applyUpdates t (webhookUpdates (mpesaHandleWebhook p) t1Time) t1Time) hid h1
  have hf2 := applyUpdates_webhookUpdates_fields
    (applyUpdates t (webhookUpdates (mpesaHandleWebhook p) t1Time) t1Time)
    (mpesaHandleWebhook p) t2Time
  rw [mpesaWebhookRoute_valid st p t1Time hv,
    mpesaWebhookRoute_valid (processWebhook st (mpesaHandleWebhook p) t1Time) p t2Time hv]
  refine ⟨rfl, rfl, ?_, ?_, ?_, ?_, ?_⟩
  · simp [h1, hf1.1, hcs]
  · simp [h1, hf1.2.1]
  · simp [h2, hf2.1, hcs]
  · simp [h2, hf2.2.1]
  · simp [h2, hf2.2.2]

theorem c3_duplicate_callback_amended_witness :
    (mpesaWebhookRoute c3Store c3Callback 1000).1 = 200
    ∧ (mpesaWebhookRoute (mpesaWebhookRoute c3Store c3Callback 1000).2 c3Callback 2000).1 = 200
    ∧ (getTransaction (mpesaWebhookRoute c3Store c3Callback 1000).2 "txn_i").map
        Transaction.status = some "completed"
    ∧ (getTransaction (mpesaWebhookRoute c3Store c3Callback 1000).2 "txn_i").map
        Transaction.completedAt = some (some 1000)
    ∧ (getTransaction (mpesaWebhookRoute (mpesaWebhookRoute c3Store c3Callback 1000).2
        c3Callback 2000).2 "txn_i").map Transaction.status = some "completed"
    ∧ (getTransaction (mpesaWebhookRoute (mpesaWebhookRoute c3Store c3Callback 1000).2
        c3Callback 2000).2 "txn_i").map Transaction.completedAt = some (some 2000)
    ∧ (getTransaction (mpesaWebhookRoute (mpesaWebhookRoute c3Store c3Callback 1000).2
        c3Callback 2000).2 "txn_i").map Transaction.updatedAt = some 2000 :=
  c3_duplicate_callback_amended c3Store c3Callback 1000 2000 "txn_i" c3StoredTxn
    (by decide) (by decide) (by decide) (by decide)

/-- Claim C4 (counterexample): a PENDING transaction whose expiry (t=500) is
long past still initiates at t=10000 — the route answers 200, performs the
provider call, and moves the status to PROCESSING; the expiry timestamp is
never consulted. -/
theorem c4_expired_initiation_proceeds :
    c4StoredTxn.status = "pending"
    ∧ c4StoredTxn.expiresAt = 500
    ∧ (500 : Nat) < 10000
    ∧ (initiateRoute c4Store 7 "txn_e" (ProviderOutcome.ok "CR1" "MR1" none) 10000).1 = 200
    ∧ (initiateRoute c4Store 7 "txn_e" (ProviderOutcome.ok "CR1" "MR1" none) 10000).2.2 = true
    ∧ (getTransaction
        (initiateRoute c4Store 7 "txn_e" (ProviderOutcome.ok "CR1" "MR1" none) 10000).2.1
        "txn_e").map Transaction.status = some "processing" := by decide

/-- Claim C4 (amended): the initiation route never consults the expiry
timestamp — for a PENDING transaction owned by the caller whose provider is
one of the dispatched set (mpesa, equity, paybill or till), initiation sets
the status to PROCESSING and performs the Provider Adapter call even when
the current time is past `expiresAt`. -/
theorem c4_expiry_never_consulted_amended (st : MemStorage) (userId : Nat)
    (tid : String) (pr : ProviderOutcome) (now : Time) (t : Transaction)
    (ht : getTransaction st tid = some t)
    (hown : t.userId = userId)
    (hpend : t.status = "pending")
    (hprov : t.provider = "mpesa" ∨ t.provider = "equity" ∨
      t.provider = "paybill" ∨ t.provider = "till")
    (hexp : t.expiresAt < now) :
    (initiateRoute st userId tid pr now).2.2 = true
    ∧ (getTransaction (initiateRoute st userId tid pr now).2.1 tid).map Transaction.status
      = some "processing"
    ∧ (initiateRoute st userId tid pr now).1
      = (match pr with
         | ProviderOutcome.ok _ _ _ => 200
         | ProviderOutcome.err => 500) := by
  have hupd := getTransaction_updateTransaction_found st tid
    { status := some "processing" } now t ht
  unfold initiateRoute
  rw [ht]
  simp only [hown, ne_eq, not_true_eq_false, if_false, hpend]
  rw [if_pos hprov]
  cases pr <;> simp [hupd, applyUpdates]

theorem c4_expiry_never_consulted_amended_witness :
    (initiateRoute c4Store 7 "txn_e" (ProviderOutcome.ok "CR1" "MR1" none) 10000).2.2 = true
    ∧ (getTransaction
        (initiateRoute c4Store 7 "txn_e" (ProviderOutcome.ok "CR1" "MR1" none) 10000).2.1
        "txn_e").map Transaction.status = some "processing"
    ∧ (initiateRoute c4Store 7 "txn_e" (ProviderOutcome.ok "CR1" "MR1" none) 10000).1 = 200 :=
  c4_expiry_never_consulted_amended c4Store 7 "txn_e"
    (ProviderOutcome.ok "CR1" "MR1" none) 10000 c4StoredTxn
    (by decide) (by decide) (by decide) (Or.inl (by decide)) (by decide)

/-- Claim C9 (counterexample): creation alone later moves an mpesa
transaction to a terminal state without any provider callback — creation
schedules a demo timer (`setTimeout` in `MemStorage.createTransaction`)
which, on a successful random draw, sets COMPLETED with a generated receipt
and `completedAt`, with no initiation and no webhook processed. -/
theorem c9_creation_timer_completes :
    (getTransaction c9AfterCreate "txn_c9").map Transaction.status = some "pending"
    ∧ "txn_c9" ∈ c9AfterCreate.pendingSimulations
    ∧ (getTransaction c9AfterTimer "txn_c9").map Transaction.status = some "completed"
    ∧ (getTransaction c9AfterTimer "txn_c9").map Transaction.mpesaReceiptNumber
      = some (some "NLJRECEIPT1")
    ∧ (getTransaction c9AfterTimer "txn_c9").map Transaction.completedAt
      = some (some 5000) := by decide

/-- Claim C9 (amended): a transaction is never deleted — every operation of
the system preserves the presence of every stored transaction — and besides
initiation and webhook processing there is a third mutation source: the demo
completion timer scheduled at creation for mpesa transactions, which sets the
status to COMPLETED or FAILED according to its random draw. -/
theorem c9_mutation_sources_amended (st : MemStorage) (op : SystemOp)
    (tid receipt : String) (success : Bool) (now : Time)
    (h : (getTransaction st tid).isSome) :
    (getTransaction (applyOp st op) tid).isSome
    ∧ (getTransaction (simulatePayment st tid success receipt now) tid).map
        Transaction.status = some (if success then "completed" else "failed") := by
  constructor
  · cases op with
    | createIntent input freshId t0 =>
      show (getTransaction (createTransaction st input freshId t0).2 tid).isSome
      exact getTransaction_createTransaction st input freshId tid t0 h
    | initiate userId tid2 pr t0 =>
      show (getTransaction (initiateRoute st userId tid2 pr t0).2.1 tid).isSome
      unfold initiateRoute
      cases hg : getTransaction st tid2 with
      | none => simpa using h
      | some t2 =>
        by_cases h1 : t2.userId ≠ userId
        · simpa [h1] using h
        · by_cases h2 : t2.status ≠ "pending"
          · simpa [h1, h2] using h
          · by_cases h3 : t2.provider = "mpesa" ∨ t2.provider = "equity" ∨
              t2.provider = "paybill" ∨ t2.provider = "till"
            · cases pr <;> simp [h1, h2, h3] <;>
                exact getTransaction_isSome_updateTransaction st tid2 tid _ t0 h
            · simp [h1, h2, h3]
              exact getTransaction_isSome_updateTransaction st tid2 tid _ t0 h
    | mpesaHook p t0 =>
      show (getTransaction (mpesaWebhookRoute st p t0).2 tid).isSome
      by_cases hv : mpesaStructValid p
      · rw [mpesaWebhookRoute_valid st p t0 hv]
        exact getTransaction_processWebhook st _ t0 tid h
      · simpa [mpesaWebhookRoute, hv] using h
    | equityHook q t0 =>
      show (getTransaction (processWebhook st (equityHandleWebhook q) t0) tid).isSome
      exact getTransaction_processWebhook st _ t0 tid h
    | simulate tid2 success2 receipt2 t0 =>
      show (getTransaction (updateTransaction st tid2 _ t0).2 tid).isSome
      exact getTransaction_isSome_updateTransaction st tid2 tid _ t0 h
  · obtain ⟨t, ht⟩ := Option.isSome_iff_exists.mp h
    have hupd := getTransaction_updateTransaction_found st tid
      { status := some (if success then "completed" else "failed")
        completedAt := some now
        mpesaReceiptNumber := some (if success then some receipt else none) } now t ht
    show (getTransaction (updateTransaction st tid _ now).2 tid).map Transaction.status
      = some (if success then "completed" else "failed")
    rw [hupd]
    cases success <;> simp [applyUpdates]

theorem c9_mutation_sources_amended_witness :
    (getTransaction (applyOp c2Store (SystemOp.equityHook sampleEquityCallback 9))
      "txn_done").isSome
    ∧ (getTransaction (simulatePayment c2Store "txn_done" true "NLJX" 9) "txn_done").map
        Transaction.status = some (if true then "completed" else "failed") :=
  c9_mutation_sources_amended c2Store (SystemOp.equityHook sampleEquityCallback 9)
    "txn_done" "NLJX" true 9 (by decide)

/-! ## Faithfulness checks of the crypto layer (FIPS 180-4 / RFC 4231 vectors) -/

set_option maxRecDepth 10000 in
theorem sha256_vector_empty : hexEncode (sha256 []) =
    "e3b0c44298fc1c149afbf4c8996fb92427ae41e4649b934ca495991b7852b855" := by decide

set_option maxRecDepth 10000 in
theorem sha256_vector_abc : hexEncode (sha256 [97, 98, 99]) =
    "ba7816bf8f01cfea414140de5dae2223b00361a396177a9cb410ff61f20015ad" := by decide

set_option maxRecDepth 10000 in
theorem hmacSha256_vector : hexEncode (hmacSha256 [107, 101, 121]
    [84, 104, 101, 32, 113, 117, 105, 99, 107, 32, 98, 114, 111, 119, 110, 32,
     102, 111, 120, 32, 106, 117, 109, 112, 115, 32, 111, 118, 101, 114, 32,
     116, 104, 101, 32, 108, 97, 122, 121, 32, 100, 111, 103]) =
    "f7bc83f430538424b13298e6aa6fb143ef4d59a14946175997479dbc2d1a3cd8" := by decide
